import Mathlib

/-!
Shallow embedding of `src/scan_minecraft.rs`: the adaptive banded affine-gap
aligner `ScanAligner` (strided SIMD band over 16-bit deltas anchored by a
32-bit absolute score), together with the exact full-matrix D/R/C dynamic
program from the recurrence stated in the source header.

The SIMD primitives (`avx2.rs`/`simd128.rs`), the scoring module
(`scores.rs`), the band-size constants, the body of the "initial pass" of a
Right column, and the result accessors are not part of the given source
tree; those definitions are modelled from the specification (and are marked
as such below).  Everything else is translated directly from the Rust file.
-/

namespace ScanMinecraft

/-- Modelled from the spec: SIMD lane count for 16-bit integers in a 256-bit
AVX2 vector (`L = 16`). -/
def L : Nat := 16

def I16_MIN : Int := -32768

def I16_MAX : Int := 32767

def I32_MIN : Int := -2147483648

def I32_MAX : Int := 2147483647

/-- `clamp` from the source: clamp an i32 value into i16 range. -/
def clamp (x : Int) : Int := min (max x I16_MIN) I16_MAX

/-- Lanewise saturating 16-bit addition (`simd_adds_i16` on one lane). -/
def adds16 (a b : Int) : Int := clamp (a + b)

/-- Lanewise saturating 16-bit subtraction (`simd_subs_i16` on one lane). -/
def subs16 (a b : Int) : Int := clamp (a - b)

/-- `i32::saturating_add`. -/
def sadd32 (a b : Int) : Int := min (max (a + b) I32_MIN) I32_MAX

/-- Rust `as i16` wrapping cast applied to an i32 value. -/
def as_i16 (x : Int) : Int := (x + 32768) % 65536 - 32768

/-- `div_ceil` from the source. -/
def div_ceil (n d : Nat) : Nat := (n + d - 1) / d

/-- Modelled from the spec: the number of stride vectors of the band,
`CEIL_K / L` where `CEIL_K = round_up(K + 1, L)`.  The constant itself is
declared in code that is missing from the source tree. -/
def STRIDE (K : Nat) : Nat := div_ceil (K + 1) L

/-- Modelled from the spec: the actual band size, `K + 1` rounded up to the
next multiple of the vector length `L`, as stated in the doc comment of
`ScanAligner::align`. -/
def CEIL_K (K : Nat) : Nat := STRIDE K * L

/-- The sentinel byte `b'A' + 26u8` from the source. -/
def NULL : Nat := 91

/-- `convert_char` from the source, release semantics: the `debug_assert`
performs no check in release builds and the byte is converted regardless. -/
def convert_char (c : Nat) (nuc : Bool) : Nat := if nuc then c else c - 65

/-- The `debug_assert` guard of `convert_char`: `c >= b'A' && c <= NULL`. -/
def convert_char_ok (c : Nat) : Prop := 65 ≤ c ∧ c ≤ NULL

instance (c : Nat) : Decidable (convert_char_ok c) := by
  unfold convert_char_ok
  infer_instance

/-!
SIMD vectors are lists of `L` lane values.  The vector primitives below are
modelled from the spec (the `avx2.rs` / `simd128.rs` modules are not in the
source tree): saturating lanewise arithmetic, one-lane shifts, the prefix
scan of §4.4, and horizontal max / argmax.
-/

def simd_set1 (x : Int) : List Int := List.replicate L x

def neg_inf : List Int := simd_set1 I16_MIN

def simd_adds (a b : List Int) : List Int := List.zipWith adds16 a b

def simd_subs (a b : List Int) : List Int := List.zipWith subs16 a b

def simd_umax (a b : List Int) : List Int := List.zipWith max a b

/-- Modelled from the spec: `simd_sl_i16!(a, b, 1)` shifts the lanes of `a`
one position up (toward higher lane indices); the last lane of `b` enters at
lane 0. -/
def simd_sl1 (a b : List Int) : List Int := b.getD (L - 1) 0 :: a.take (L - 1)

/-- Modelled from the spec: shift lanes one position down; the inserted
value enters at lane `L - 1` (`simd_sr_i16!(ins, v, 1)` with `ins` a
broadcast vector). -/
def simd_sr1 (ins : Int) (v : List Int) : List Int := v.drop 1 ++ [ins]

def extract0 (v : List Int) : Int := v.getD 0 0

def extract_last (v : List Int) : Int := v.getD (L - 1) 0

def scan_acc (g : Int) : Int → List Int → List Int
  | _, [] => []
  | acc, x :: xs =>
    let v := max x (adds16 acc g)
    v :: scan_acc g v xs

/-- Modelled from the spec (glossary): `simd_prefix_scan_i16` gives lane `l`
the maximum over `k ≤ l` of `x_k` decayed by `l - k` saturating additions of
the gap cost `g`. -/
def simd_prefix_scan (g : Int) : List Int → List Int
  | [] => []
  | x :: xs => x :: scan_acc g x xs

def simd_hmax (v : List Int) : Int := v.foldl max I16_MIN

def first_idx : List Int → Int → Nat
  | [], _ => 0
  | x :: xs, m => if x = m then 0 else first_idx xs m + 1

/-!
Strided band layout, from the spec: lane `l` of stride vector `v` holds the
in-band logical index `v + l·STRIDE`; equivalently, logical index `k` lives
in stride vector `k % STRIDE` at lane `k / STRIDE` (when `ring_buf_idx`
is 0).
-/

def vec_get {α : Type} (band : List (List α)) (i : Nat) : List α := band.getD i []

def band_get {α : Type} [Inhabited α] (K : Nat) (band : List (List α)) (k : Nat) : α :=
  (vec_get band (k % STRIDE K)).getD (k / STRIDE K) default

/-- Value at flat buffer position `p`: stride vector `p / L`, lane `p % L`. -/
def band_flat_get {α : Type} [Inhabited α] (band : List (List α)) (p : Nat) : α :=
  (vec_get band (p / L)).getD (p % L) default

def build_band {α : Type} (K : Nat) (f : Nat → α) : List (List α) :=
  (List.range (STRIDE K)).map (fun v => (List.range L).map (fun l => f (v + l * STRIDE K)))

/-- `Direction` from the source (the scan aligner uses `Right` and
`Down(shift_iter)`). -/
inductive Dir where
  | Right : Dir
  | Down : Nat → Dir
  deriving DecidableEq

/-- The aligner state: the fields used by `ScanAligner::align` (the struct
declaration in the source is incomplete; fields follow §3 of the spec), plus
the locals `delta_D00`, `abs_R_band`, `abs_D_band` that the align loop
threads between its Down and Right arms. -/
structure AlignState where
  query : List Nat
  query_buf : List (List Nat)
  delta_D : List (List Int)
  delta_C : List (List Int)
  abs_A00 : Int
  ring_buf_idx : Nat
  best_max : Int
  best_argmax_i : Nat
  best_argmax_j : Nat
  ref_idx : Nat
  shift_dir : Dir
  delta_D00 : List Int
  abs_R_band : Int
  abs_D_band : Int

/-- The compile-time parameters of `ScanAligner<P, M, K, TRACE, X_DROP>`
(with `TRACE = false`): band width `K`, the scoring matrix with its `NUC`
flag, the affine gap penalties, and the `X_DROP` switch. -/
structure AlignParams where
  K : Nat
  nuc : Bool
  matrix : Nat → Nat → Int
  gap_open : Int
  gap_extend : Int
  x_drop_on : Bool

/-- The `delta_D` initialization of `ScanAligner::new`: `0` at logical
index 0, `GAP_OPEN + (k-1)·GAP_EXTEND` (computed in i32 and stored
`as i16`) for `1 ≤ k ≤ query_len`, `i16::MIN` beyond the query. -/
def init_delta_D (q_len : Nat) (gap_open gap_extend : Int) (k : Nat) : Int :=
  if k ≤ q_len then
    (if k = 0 then 0 else as_i16 (gap_open + ((k : Int) - 1) * gap_extend))
  else I16_MIN

/-- The `query_buf` initialization of `ScanAligner::new`: sentinel at
logical index 0 and beyond the query, `query[k-1]` at `1 ≤ k ≤ query_len`,
all passed through `convert_char`. -/
def init_query_buf (q : List Nat) (nuc : Bool) (k : Nat) : Nat :=
  if k ≤ q.length then
    convert_char (if k = 0 then NULL else q.getD (k - 1) 0) nuc
  else convert_char NULL nuc

/-- `ScanAligner::new` (initial scalar fields per §4.3 of the spec:
`abs_A00 = 0`, `ring_buf_idx = 0`, `ref_idx = 0`). -/
def scan_new (p : AlignParams) (q : List Nat) : AlignState :=
  { query := q
    query_buf := build_band p.K (init_query_buf q p.nuc)
    delta_D := build_band p.K (init_delta_D q.length p.gap_open p.gap_extend)
    delta_C := build_band p.K (fun _ => I16_MIN)
    abs_A00 := 0
    ring_buf_idx := 0
    best_max := I32_MIN
    best_argmax_i := 0
    best_argmax_j := 0
    ref_idx := 0
    shift_dir := Dir.Right
    delta_D00 := []
    abs_R_band := I32_MIN
    abs_D_band := I16_MIN }

/-- Modelled from the spec: `shift_idx()` is the absolute query-origin of
the first cell of the band, i.e. the number of single-row down shifts
performed, which is exactly `ring_buf_idx`. -/
def AlignState.shift_idx (st : AlignState) : Nat := st.ring_buf_idx

/-- Modelled from the spec: `query_idx()` is the query position of the lane
shifted in at the bottom of the band, `shift_idx + CEIL_K - 1`. -/
def AlignState.query_idx (p : AlignParams) (st : AlignState) : Nat :=
  st.ring_buf_idx + CEIL_K p.K - 1

/-- One iteration of the `Direction::Down` arm of `ScanAligner::align`:
rewrite the stride vector at `ring_buf_idx % STRIDE` (shifting in the next
query symbol, the clamped new bottom `delta_D` value, and `i16::MIN` for
`delta_C`), update `abs_D_band`/`abs_R_band`, record the pre-shift vector in
`delta_D00`, and increment `ring_buf_idx`. -/
def down_once (p : AlignParams) (st : AlignState) : AlignState :=
  let v := st.ring_buf_idx % STRIDE p.K
  let c := if st.query_idx p < st.query.length then st.query.getD (st.query_idx p) 0 else NULL
  let q_ins := convert_char c p.nuc
  let aD := max (st.abs_D_band + p.gap_open) st.abs_R_band
  let ins := clamp (aD - st.abs_A00)
  let oldD := vec_get st.delta_D v
  { st with
    query_buf := st.query_buf.set v ((vec_get st.query_buf v).drop 1 ++ [q_ins])
    delta_D := st.delta_D.set v (simd_sr1 ins oldD)
    delta_C := st.delta_C.set v (simd_sr1 I16_MIN (vec_get st.delta_C v))
    delta_D00 := oldD
    abs_D_band := aD
    abs_R_band := I32_MIN
    ring_buf_idx := st.ring_buf_idx + 1 }

/-- The full `Direction::Down` arm: up to `shift_iter` single-row shifts,
stopping early (like the `continue 'outer`) once `shift_idx` reaches the end
of the query; in either case `shift_dir` becomes `Right`. -/
def down_phase (p : AlignParams) : AlignState → Nat → AlignState
  | st, 0 => { st with shift_dir := Dir.Right }
  | st, Nat.succ t =>
    if st.query.length ≤ st.shift_idx then { st with shift_dir := Dir.Right }
    else down_phase p (down_once p st) t

/-- Accumulator of the initial pass of a Right column. -/
structure ColPass1 where
  dD00 : List Int
  dRmax : List Int
  dD : List (List Int)
  dC : List (List Int)

/-- Modelled from the spec (§4.4, the "initial pass" block of the source is
empty): one stride step loads the previous `delta_D`/`delta_C` vector
(offset into the new band basis), computes
`delta_D11 = delta_D00 + scores`, `delta_C11 = max(C + extend, D + open)`,
takes their max, stores `delta_C`, accumulates the row-gap candidate vector
`delta_R_max = max(delta_R_max + extend, delta_D11)`, and advances
`delta_D00` to the loaded previous `delta_D`. -/
def pass1_step (go16 ge16 abs_offset : Int) (scores_row : Nat → Int)
    (qb : List (List Nat)) (idx : Nat) (a : ColPass1) : ColPass1 :=
  let scores := (vec_get qb idx).map scores_row
  let Dprev := simd_adds (vec_get a.dD idx) (simd_set1 abs_offset)
  let Cprev := simd_adds (vec_get a.dC idx) (simd_set1 abs_offset)
  let D11a := simd_adds a.dD00 scores
  let C11 := simd_umax (simd_adds Cprev (simd_set1 ge16)) (simd_adds Dprev (simd_set1 go16))
  let D11 := simd_umax D11a C11
  { dD00 := Dprev
    dRmax := simd_umax (simd_adds a.dRmax (simd_set1 ge16)) D11
    dD := a.dD.set idx D11
    dC := a.dC.set idx C11 }

/-- Accumulator of the final pass of a Right column. -/
structure ColPass2 where
  dR01 : List Int
  dD01 : List Int
  dDmax : List Int
  dArgmax : List Nat
  dD : List (List Int)

def argmax_update (i : Nat) : List Int → List Int → List Nat → List Nat
  | m :: ms, d :: ds, a :: la => (if d = m then i else a) :: argmax_update i ms ds la
  | _, _, _ => []

/-- One stride step of the final pass (source lines 511-539):
`delta_R11 = max(delta_R01 + extend, delta_D01 + open)`,
`delta_D11 = max(delta_D11, delta_R11)`, running lanewise max and argmax of
`delta_D`, store `delta_D` back. -/
def pass2_step (go16 ge16 : Int) (idx i : Nat) (a : ColPass2) : ColPass2 :=
  let dR11 := simd_umax (simd_adds a.dR01 (simd_set1 ge16)) (simd_adds a.dD01 (simd_set1 go16))
  let dD11 := simd_umax (vec_get a.dD idx) dR11
  let dDmax := simd_umax a.dDmax dD11
  { dR01 := dR11
    dD01 := dD11
    dDmax := dDmax
    dArgmax := argmax_update i dDmax dD11 a.dArgmax
    dD := a.dD.set idx dD11 }

/-- The results of one `Direction::Right` column that the adaptive
controller consumes. -/
structure RightData where
  abs_band : Int
  new_delta_D : List (List Int)
  new_delta_C : List (List Int)
  new_delta_D00 : List Int
  new_abs_R_band : Int
  new_abs_D_band : Int
  max_lane : Int
  lane_idx : Nat
  stride_idx : Nat
  argmax : Nat
  max_abs : Int

/-- One `Direction::Right` column of `ScanAligner::align` for reference
character `c`: the re-basing (`abs_band`, `abs_offset`), the initial pass,
the prefix scan with `stride_gap = STRIDE·GAP_EXTEND` and the
`abs_R_band` computation, the final pass, and the horizontal max/argmax
(lowest lane attaining the max, its last recorded stride position). -/
def right_data (p : AlignParams) (st : AlignState) (c : Nat) : RightData :=
  let S := STRIDE p.K
  let go16 := as_i16 p.gap_open
  let ge16 := as_i16 p.gap_extend
  let stride_gap := as_i16 ((S : Int) * ge16)
  let scores_row := fun qc => p.matrix (convert_char c p.nuc) qc
  let rb := st.ring_buf_idx
  let abs_band := sadd32 st.abs_A00 (extract0 (vec_get st.delta_D (rb % S)))
  let abs_offset := clamp (st.abs_A00 - abs_band)
  let d00 := simd_adds st.delta_D00 (simd_set1 abs_offset)
  let a1 := (List.range S).foldl
    (fun a i => pass1_step go16 ge16 abs_offset scores_row st.query_buf ((rb + i) % S) a)
    { dD00 := d00, dRmax := neg_inf, dD := st.delta_D, dC := st.delta_C }
  let prev_last := extract_last a1.dRmax
  let scanned := simd_prefix_scan stride_gap (simd_sl1 a1.dRmax neg_inf)
  let curr_last := extract_last (simd_adds scanned (simd_set1 stride_gap))
  let abs_R := sadd32 abs_band (max prev_last curr_last + p.gap_open)
  let a2 := (List.range S).foldl
    (fun a i => pass2_step go16 ge16 ((rb + i) % S) i a)
    { dR01 := simd_adds (simd_subs scanned (simd_set1 ge16)) (simd_set1 go16)
      dD01 := neg_inf
      dDmax := neg_inf
      dArgmax := List.replicate L 0
      dD := a1.dD }
  let abs_D := sadd32 abs_band (extract_last a2.dD01)
  let mx := simd_hmax a2.dDmax
  let lane := first_idx a2.dDmax mx
  let sidx := a2.dArgmax.getD lane 0
  { abs_band := abs_band
    new_delta_D := a2.dD
    new_delta_C := a1.dC
    new_delta_D00 := simd_sl1 a2.dD01 neg_inf
    new_abs_R_band := abs_R
    new_abs_D_band := abs_D
    max_lane := mx
    lane_idx := lane
    stride_idx := sidx
    argmax := sidx + lane * S
    max_abs := sadd32 mx abs_band }

/-- Apply one Right column to the state: store the new band, update
`abs_A00`, then either break on the X-drop condition (second component
`true`), or update the best score/end-point bookkeeping and choose the next
shift direction with the `CEIL_K·5/8` threshold. -/
def right_step (p : AlignParams) (st : AlignState) (c : Nat) (j : Nat) (x_drop : Int) :
    AlignState × Bool :=
  let d := right_data p st c
  let st1 := { st with
    delta_D := d.new_delta_D
    delta_C := d.new_delta_C
    delta_D00 := d.new_delta_D00
    abs_R_band := d.new_abs_R_band
    abs_D_band := d.new_abs_D_band
    abs_A00 := d.abs_band }
  if p.x_drop_on && decide (d.max_abs < st.best_max - x_drop) then (st1, true)
  else
    let cond := !p.x_drop_on || decide (st.best_max < d.max_abs)
    ({ st1 with
      best_argmax_i := if cond then d.argmax + st.shift_idx else st.best_argmax_i
      best_argmax_j := if cond then j + st.ref_idx + 1 else st.best_argmax_j
      best_max := if cond then d.max_abs else st.best_max
      shift_dir := if CEIL_K p.K * 5 / 8 < d.argmax then Dir.Down (d.argmax - CEIL_K p.K / 2)
                   else Dir.Right }, false)

/-- The `'outer` loop of `ScanAligner::align` over the reference: a pending
Down phase (which never consumes a reference column) followed by a Right
column per reference character, stopping early when a Right column signals
the X-drop break. -/
def align_cols (p : AlignParams) (x_drop : Int) : AlignState → List Nat → Nat → AlignState
  | st, [], _ => st
  | st, c :: rest, j =>
    let st0 := match st.shift_dir with
      | Dir.Down t => down_phase p st t
      | Dir.Right => st
    match right_step p st0 c j x_drop with
    | (st1, true) => st1
    | (st1, false) => align_cols p x_drop st1 rest (j + 1)

/-- `ScanAligner::align`: the `assert!(x_drop >= 0)` under `X_DROP` (a panic
is `none`), initialization of the loop locals (`delta_D00` from the last
stride vector shifted up by one lane), the column loop, and the final
`ref_idx` update. -/
def align (p : AlignParams) (st : AlignState) (reference : List Nat) (x_drop : Int) :
    Option AlignState :=
  if p.x_drop_on && decide (x_drop < 0) then none
  else
    let st1 := { st with
      delta_D00 := simd_sl1 (vec_get st.delta_D ((st.ring_buf_idx + STRIDE p.K - 1) % STRIDE p.K)) neg_inf
      abs_R_band := I32_MIN
      abs_D_band := I16_MIN }
    let out := align_cols p x_drop st1 reference 0
    some { out with ref_idx := out.ref_idx + reference.length }

/-- `ScanAligner::new` followed by one call of `align`. -/
def run_align (K : Nat) (nuc : Bool) (mat : Nat → Nat → Int) (go ge : Int) (xd : Bool)
    (q r : List Nat) (x_drop : Int) : Option AlignState :=
  let p : AlignParams := ⟨K, nuc, mat, go, ge, xd⟩
  align p (scan_new p q) r x_drop

/-- Modelled from the spec: the missing `score()` accessor.  The spec §4.5
formula (`abs_A00 + delta_D[query_len - shift_idx]`) contradicts the
asserted value `-1` of `test_scan_align` for query `AAAA` against reference
`C` (the formula yields the exact bottom-right value `-4` there); the
source's own tests pin `score()` to the tracked `best_max`, which under
`!X_DROP` is the maximum of the final processed column (source lines
561-565) and matches every asserted score. -/
def run_score (K : Nat) (nuc : Bool) (mat : Nat → Nat → Int) (go ge : Int) (xd : Bool)
    (q r : List Nat) (x_drop : Int) : Option Int :=
  (run_align K nuc mat go ge xd q r x_drop).map (fun st => st.best_max)

/-- Modelled from the spec: the missing `end_idx()` accessor returns the
tracked best end point `(best_argmax_i, best_argmax_j)`. -/
def run_end_idx (K : Nat) (nuc : Bool) (mat : Nat → Nat → Int) (go ge : Int) (xd : Bool)
    (q r : List Nat) (x_drop : Int) : Option (Nat × Nat) :=
  (run_align K nuc mat go ge xd q r x_drop).map (fun st => (st.best_argmax_i, st.best_argmax_j))

/-- Modelled from the spec: the `NW1` nucleotide matrix over raw bytes:
identity +1, mismatch -1, `N` scoring 0 against everything (pinned by the
`AAAN`/`ATAA` test), sentinel entries scoring as mismatches. -/
def NW1 (a b : Nat) : Int :=
  if a = NULL ∨ b = NULL then -1
  else if a = b ∧ (a = 65 ∨ a = 67 ∨ a = 71 ∨ a = 84) then 1
  else if a = 78 ∨ b = 78 then 0
  else -1

/-- Modelled from the spec: `BLOSUM62` restricted to the converted indices
appearing in the tests (`A = 0`, `R = 17`; `A·A = 4`, `R·R = 5`,
`A·R = -1`), with sentinel rows and columns padded by the minimal i8
score. -/
def BLOSUM62 (a b : Nat) : Int :=
  if a = 26 ∨ b = 26 then -128
  else if a = 0 ∧ b = 0 then 4
  else if a = 17 ∧ b = 17 then 5
  else if (a = 0 ∧ b = 17) ∨ (a = 17 ∧ b = 0) then -1
  else 0

/-!
The exact full-matrix affine-gap dynamic program, written from the D/R/C
recurrence stated in the source header (lines 79-92):
`R[i][j] = max(R[i-1][j] + gap_extend, D[i-1][j] + gap_open)`,
`C[i][j] = max(C[i][j-1] + gap_extend, D[i][j-1] + gap_open)`,
`D[i][j] = max(D[i-1][j-1] + matrix[query[i]][reference[j]], R[i][j], C[i][j])`,
with global boundary `D[0][0] = 0`,
`D[i][0] = R[i][0] = GAP_OPEN + (i-1)·GAP_EXTEND` and symmetrically for row
zero; `none` plays the role of `-∞`.
-/

def omax : Option Int → Option Int → Option Int
  | none, b => b
  | a, none => a
  | some a, some b => some (max a b)

def oadd (a : Option Int) (x : Int) : Option Int := a.map (fun v => v + x)

structure DPCell where
  D : Option Int
  R : Option Int
  C : Option Int

def dp_row_zero (go ge : Int) : Nat → DPCell
  | 0 => ⟨some 0, none, none⟩
  | j + 1 => ⟨some (go + (j : Int) * ge), none, some (go + (j : Int) * ge)⟩

def dp_next_cell (s go ge : Int) (diag up left : DPCell) : DPCell :=
  let r := omax (oadd up.R ge) (oadd up.D go)
  let c := omax (oadd left.C ge) (oadd left.D go)
  ⟨omax (oadd diag.D s) (omax r c), r, c⟩

def dp_row_succ (m : Nat → Nat → Int) (go ge : Int) (r : List Nat) (prev : Nat → DPCell)
    (qc : Nat) (i : Nat) : Nat → DPCell
  | 0 => ⟨some (go + (i : Int) * ge), some (go + (i : Int) * ge), none⟩
  | j + 1 =>
    dp_next_cell (m qc (r.getD j 0)) go ge (prev j) (prev (j + 1))
      (dp_row_succ m go ge r prev qc i j)

def dp_row (m : Nat → Nat → Int) (go ge : Int) (q r : List Nat) : Nat → Nat → DPCell
  | 0 => dp_row_zero go ge
  | i + 1 => dp_row_succ m go ge r (dp_row m go ge q r i) (q.getD i 0) i

/-- Exact DP value `D[i][j]` for aligning the length-`i` prefix of `q` with
the length-`j` prefix of `r`. -/
def dp_D (m : Nat → Nat → Int) (go ge : Int) (q r : List Nat) (i j : Nat) : Option Int :=
  (dp_row m go ge q r i j).D

/-- The exact global alignment score of `q` against `r`. -/
def dp_score (m : Nat → Nat → Int) (go ge : Int) (q r : List Nat) : Option Int :=
  dp_D m go ge q r q.length r.length

/-- Maximum of the exact DP values of column `j` over rows `0 ≤ i < n`. -/
def dp_col_max (m : Nat → Nat → Int) (go ge : Int) (q r : List Nat) (n j : Nat) : Option Int :=
  (List.range n).foldl (fun a i => omax a (dp_D m go ge q r i j)) none

/-!
An iterative (row-table) form of the same exact DP, built from the same
`dp_next_cell` recurrence step; `dp_fast_D_eq` below proves it equal to
`dp_row` everywhere within the table, so concrete invariant checks can
evaluate the exact DP in polynomial time.
-/

/-- Query of the band-width counterexample (36 nucleotide bytes). -/
def mono_cex_q : List Nat :=
  [65, 65, 65, 84, 65, 84, 84, 65, 84, 65, 71, 65, 84, 65, 67, 71, 65, 67,
   65, 65, 67, 84, 65, 65, 71, 65, 65, 71, 65, 71, 65, 65, 84, 67, 65, 84]

/-- Reference of the band-width counterexample (28 nucleotide bytes). -/
def mono_cex_r : List Nat :=
  [65, 65, 67, 71, 65, 65, 67, 65, 65, 65, 84, 71, 65, 65, 71, 71, 84, 84,
   67, 65, 84, 71, 65, 65, 67, 71, 65, 67]

/-- Concrete parameters for an X-drop witness state. -/
def c3_params : AlignParams := ⟨2, true, NW1, -1, -1, true⟩

/-- The state right after `align` initializes its loop locals, for the
one-symbol query `A` (used as a concrete witness state). -/
def c3_state : AlignState :=
  { scan_new c3_params [65] with
    delta_D00 := simd_sl1 (vec_get (scan_new c3_params [65]).delta_D
      (((scan_new c3_params [65]).ring_buf_idx + STRIDE 2 - 1) % STRIDE 2)) neg_inf
    abs_R_band := I32_MIN
    abs_D_band := I16_MIN }

/-- Concrete parameters for a global-mode witness state. -/
def c6_params : AlignParams := ⟨2, true, NW1, -1, -1, false⟩

/-- The state right after `align` initializes its loop locals, for the
one-symbol query `A`, in global mode (used as a concrete witness state). -/
def c6_state : AlignState :=
  { scan_new c6_params [65] with
    delta_D00 := simd_sl1 (vec_get (scan_new c6_params [65]).delta_D
      (((scan_new c6_params [65]).ring_buf_idx + STRIDE 2 - 1) % STRIDE 2)) neg_inf
    abs_R_band := I32_MIN
    abs_D_band := I16_MIN }

/-- Parameters of a concrete global run that performs Down shifts
(`K = 14`, so `CEIL_K = 16` and `STRIDE = 1`). -/
def c2_params : AlignParams := ⟨14, true, NW1, -1, -1, false⟩

/-- Query of the concrete shift run: fifteen `A` bytes (all 16 band lanes
cover rows of the DP matrix before any shift). -/
def c2_query : List Nat := List.replicate 15 65

/-- The shift run's state right after `align` initializes its loop
locals. -/
def c2_start : AlignState :=
  { scan_new c2_params c2_query with
    delta_D00 := simd_sl1 (vec_get (scan_new c2_params c2_query).delta_D
      (((scan_new c2_params c2_query).ring_buf_idx + STRIDE 14 - 1) % STRIDE 14)) neg_inf
    abs_R_band := I32_MIN
    abs_D_band := I16_MIN }

theorem stride_pos (K : Nat) : 0 < STRIDE K := by
  unfold STRIDE div_ceil L
  omega

theorem getD_set_self {α : Type} (l : List α) (i : Nat) (a d : α) (h : i < l.length) :
    (l.set i a).getD i d = a := by
  induction l generalizing i with
  | nil => simp at h
  | cons x xs ih =>
    cases i with
    | zero => rfl
    | succ n =>
      simp only [List.set_cons_succ, List.getD_cons_succ]
      exact ih n (by simpa using h)

theorem getD_set_ne {α : Type} (l : List α) (i j : Nat) (a d : α) (h : i ≠ j) :
    (l.set i a).getD j d = l.getD j d := by
  induction l generalizing i j with
  | nil => simp [List.set]
  | cons x xs ih =>
    cases i with
    | zero =>
      cases j with
      | zero => exact absurd rfl h
      | succ m => simp [List.set_cons_zero, List.getD_cons_succ]
    | succ n =>
      cases j with
      | zero => simp [List.set_cons_succ, List.getD_cons_zero]
      | succ m =>
        simp only [List.set_cons_succ, List.getD_cons_succ]
        exact ih n m (by omega)

theorem getD_map_range {α : Type} (n : Nat) (g : Nat → α) (i : Nat) (d : α) (h : i < n) :
    ((List.range n).map g).getD i d = g i := by
  have hl : i < ((List.range n).map g).length := by simpa using h
  rw [List.getD_eq_getElem _ _ hl]
  simp

theorem band_get_build {α : Type} [Inhabited α] (K : Nat) (f : Nat → α) (k : Nat)
    (h : k < CEIL_K K) : band_get K (build_band K f) k = f k := by
  have hS := stride_pos K
  have h1 : k % STRIDE K < STRIDE K := Nat.mod_lt _ hS
  have h2 : k / STRIDE K < L := by
    rw [Nat.div_lt_iff_lt_mul hS]
    calc k < CEIL_K K := h
    _ = L * STRIDE K := by rw [CEIL_K, Nat.mul_comm]
  unfold band_get vec_get build_band
  rw [getD_map_range _ _ _ _ h1, getD_map_range _ _ _ _ h2, Nat.mod_add_div']

theorem flat_div16 (a b : Nat) (hb : b < 16) : (a * 16 + b) / 16 = a := by omega

theorem flat_mod16 (a b : Nat) (hb : b < 16) : (a * 16 + b) % 16 = b := by omega

theorem band_flat_get_strided {α : Type} [Inhabited α] (K : Nat) (band : List (List α))
    (k : Nat) (h : k / STRIDE K < L) :
    band_flat_get band (k % STRIDE K * L + k / STRIDE K) = band_get K band k := by
  unfold L at h
  unfold band_flat_get band_get L
  rw [flat_div16 _ _ h, flat_mod16 _ _ h]

theorem omax_comm (a b : Option Int) : omax a b = omax b a := by
  cases a <;> cases b <;> simp [omax, max_comm]

theorem NW1_symm (a b : Nat) : NW1 a b = NW1 b a := by
  unfold NW1
  by_cases h : a = b
  · subst h
    rfl
  · have h2 : ¬ b = a := fun hh => h hh.symm
    by_cases hN : a = NULL ∨ b = NULL
    · rw [if_pos hN, if_pos hN.symm]
    · rw [if_neg hN, if_neg (fun hh : b = NULL ∨ a = NULL => hN hh.symm)]
      rw [if_neg (show ¬(a = b ∧ (a = 65 ∨ a = 67 ∨ a = 71 ∨ a = 84)) from fun hh => h hh.1),
        if_neg (show ¬(b = a ∧ (b = 65 ∨ b = 67 ∨ b = 71 ∨ b = 84)) from fun hh => h2 hh.1)]
      by_cases h78 : a = 78 ∨ b = 78
      · rw [if_pos h78, if_pos h78.symm]
      · rw [if_neg h78, if_neg (fun hh : b = 78 ∨ a = 78 => h78 hh.symm)]

theorem as_i16_eq_self (x : Int) (h1 : I16_MIN ≤ x) (h2 : x ≤ I16_MAX) : as_i16 x = x := by
  unfold as_i16
  unfold I16_MIN at h1
  unfold I16_MAX at h2
  omega

theorem ceil_k_congr (K1 K2 : Nat) (h : STRIDE K1 = STRIDE K2) : CEIL_K K1 = CEIL_K K2 := by
  unfold CEIL_K
  rw [h]

theorem build_band_congr {α : Type} (K1 K2 : Nat) (f : Nat → α) (h : STRIDE K1 = STRIDE K2) :
    build_band K1 f = build_band K2 f := by
  unfold build_band
  rw [h]

theorem scan_new_congr (K1 K2 : Nat) (nuc : Bool) (mat : Nat → Nat → Int) (go ge : Int)
    (xd : Bool) (q : List Nat) (h : STRIDE K1 = STRIDE K2) :
    scan_new ⟨K1, nuc, mat, go, ge, xd⟩ q = scan_new ⟨K2, nuc, mat, go, ge, xd⟩ q := by
  unfold scan_new
  rw [build_band_congr _ _ _ h, build_band_congr _ _ _ h, build_band_congr _ _ _ h]

theorem down_once_congr (K1 K2 : Nat) (nuc : Bool) (mat : Nat → Nat → Int) (go ge : Int)
    (xd : Bool) (st : AlignState) (h : STRIDE K1 = STRIDE K2) :
    down_once ⟨K1, nuc, mat, go, ge, xd⟩ st = down_once ⟨K2, nuc, mat, go, ge, xd⟩ st := by
  unfold down_once AlignState.query_idx
  rw [h, ceil_k_congr _ _ h]

theorem down_phase_congr (K1 K2 : Nat) (nuc : Bool) (mat : Nat → Nat → Int) (go ge : Int)
    (xd : Bool) (h : STRIDE K1 = STRIDE K2) :
    ∀ (t : Nat) (st : AlignState),
      down_phase ⟨K1, nuc, mat, go, ge, xd⟩ st t = down_phase ⟨K2, nuc, mat, go, ge, xd⟩ st t := by
  intro t
  induction t with
  | zero => intro st; rfl
  | succ t ih =>
    intro st
    by_cases hq : st.query.length ≤ st.shift_idx
    · simp only [down_phase, if_pos hq]
    · simp only [down_phase, if_neg hq]
      rw [down_once_congr _ _ _ _ _ _ _ _ h]
      exact ih _

theorem right_data_congr (K1 K2 : Nat) (nuc : Bool) (mat : Nat → Nat → Int) (go ge : Int)
    (xd : Bool) (st : AlignState) (c : Nat) (h : STRIDE K1 = STRIDE K2) :
    right_data ⟨K1, nuc, mat, go, ge, xd⟩ st c = right_data ⟨K2, nuc, mat, go, ge, xd⟩ st c := by
  unfold right_data
  rw [h]

theorem right_step_congr (K1 K2 : Nat) (nuc : Bool) (mat : Nat → Nat → Int) (go ge : Int)
    (xd : Bool) (st : AlignState) (c j : Nat) (x : Int) (h : STRIDE K1 = STRIDE K2) :
    right_step ⟨K1, nuc, mat, go, ge, xd⟩ st c j x =
      right_step ⟨K2, nuc, mat, go, ge, xd⟩ st c j x := by
  unfold right_step
  rw [right_data_congr _ _ _ _ _ _ _ _ _ h, ceil_k_congr _ _ h]

theorem align_cols_congr (K1 K2 : Nat) (nuc : Bool) (mat : Nat → Nat → Int) (go ge : Int)
    (xd : Bool) (x : Int) (h : STRIDE K1 = STRIDE K2) :
    ∀ (ref : List Nat) (st : AlignState) (j : Nat),
      align_cols ⟨K1, nuc, mat, go, ge, xd⟩ x st ref j =
        align_cols ⟨K2, nuc, mat, go, ge, xd⟩ x st ref j := by
  intro ref
  induction ref with
  | nil => intro st j; rfl
  | cons c rest ih =>
    intro st j
    show (match right_step ⟨K1, nuc, mat, go, ge, xd⟩
            (match st.shift_dir with
             | Dir.Down t => down_phase ⟨K1, nuc, mat, go, ge, xd⟩ st t
             | Dir.Right => st) c j x with
          | (st1, true) => st1
          | (st1, false) => align_cols ⟨K1, nuc, mat, go, ge, xd⟩ x st1 rest (j + 1)) =
         (match right_step ⟨K2, nuc, mat, go, ge, xd⟩
            (match st.shift_dir with
             | Dir.Down t => down_phase ⟨K2, nuc, mat, go, ge, xd⟩ st t
             | Dir.Right => st) c j x with
          | (st1, true) => st1
          | (st1, false) => align_cols ⟨K2, nuc, mat, go, ge, xd⟩ x st1 rest (j + 1))
    have hst0 : (match st.shift_dir with
        | Dir.Down t => down_phase ⟨K1, nuc, mat, go, ge, xd⟩ st t
        | Dir.Right => st) =
        (match st.shift_dir with
        | Dir.Down t => down_phase ⟨K2, nuc, mat, go, ge, xd⟩ st t
        | Dir.Right => st) := by
      cases st.shift_dir with
      | Right => rfl
      | Down t => exact down_phase_congr _ _ _ _ _ _ _ h t st
    rw [hst0, right_step_congr _ _ _ _ _ _ _ _ _ _ _ h]
    cases right_step ⟨K2, nuc, mat, go, ge, xd⟩
        (match st.shift_dir with
         | Dir.Down t => down_phase ⟨K2, nuc, mat, go, ge, xd⟩ st t
         | Dir.Right => st) c j x with
    | mk st1 b =>
      cases b with
      | true => rfl
      | false => exact ih st1 (j + 1)

theorem align_congr (K1 K2 : Nat) (nuc : Bool) (mat : Nat → Nat → Int) (go ge : Int)
    (xd : Bool) (st : AlignState) (r : List Nat) (x : Int) (h : STRIDE K1 = STRIDE K2) :
    align ⟨K1, nuc, mat, go, ge, xd⟩ st r x = align ⟨K2, nuc, mat, go, ge, xd⟩ st r x := by
  have key : ∀ Kk : Nat, align ⟨Kk, nuc, mat, go, ge, xd⟩ st r x =
      if (xd && decide (x < 0)) = true then none
      else some { align_cols ⟨Kk, nuc, mat, go, ge, xd⟩ x
          { st with
            delta_D00 := simd_sl1 (vec_get st.delta_D
              ((st.ring_buf_idx + STRIDE Kk - 1) % STRIDE Kk)) neg_inf
            abs_R_band := I32_MIN
            abs_D_band := I16_MIN } r 0 with
        ref_idx := (align_cols ⟨Kk, nuc, mat, go, ge, xd⟩ x
          { st with
            delta_D00 := simd_sl1 (vec_get st.delta_D
              ((st.ring_buf_idx + STRIDE Kk - 1) % STRIDE Kk)) neg_inf
            abs_R_band := I32_MIN
            abs_D_band := I16_MIN } r 0).ref_idx + r.length } := fun Kk => rfl
  rw [key K1, key K2, h, align_cols_congr _ _ _ _ _ _ _ _ h]

/-- C4: immediately after `ScanAligner::new` for query `q` (with gap
penalties small enough that the `as i16` store does not truncate): the
query buffer holds the sentinel at logical lane 0 and beyond the query and
the converted symbol `q[k-1]` at lanes `1 ≤ k ≤ min(CEIL_K-1, |q|)`;
`delta_D` holds `0` at lane 0, `GAP_OPEN + (k-1)·GAP_EXTEND` at lanes
`1 ≤ k ≤ |q|`, and `i16::MIN` at the remaining lanes; `delta_C` is
`i16::MIN` everywhere; and logical index `k` is stored at flat strided
buffer position `(k % STRIDE)·L + (k / STRIDE)`. -/
theorem C4_scan_new_init (p : AlignParams) (q : List Nat)
    (hrange : ∀ k, k < CEIL_K p.K →
      I16_MIN ≤ p.gap_open + ((k : Int) - 1) * p.gap_extend ∧
      p.gap_open + ((k : Int) - 1) * p.gap_extend ≤ I16_MAX) :
    ∀ k, k < CEIL_K p.K →
      (band_get p.K (scan_new p q).query_buf k =
        (if k = 0 ∨ q.length < k then convert_char NULL p.nuc
         else convert_char (q.getD (k - 1) 0) p.nuc)) ∧
      (band_get p.K (scan_new p q).delta_D k =
        (if k = 0 then 0
         else if k ≤ q.length then p.gap_open + ((k : Int) - 1) * p.gap_extend
         else I16_MIN)) ∧
      band_get p.K (scan_new p q).delta_C k = I16_MIN ∧
      band_flat_get (scan_new p q).delta_D (k % STRIDE p.K * L + k / STRIDE p.K) =
        band_get p.K (scan_new p q).delta_D k := by
  intro k hk
  have hlane : k / STRIDE p.K < L := by
    rw [Nat.div_lt_iff_lt_mul (stride_pos p.K)]
    calc k < CEIL_K p.K := hk
    _ = L * STRIDE p.K := by rw [CEIL_K, Nat.mul_comm]
  refine ⟨?_, ?_, ?_, ?_⟩
  · show band_get p.K (build_band p.K (init_query_buf q p.nuc)) k = _
    rw [band_get_build _ _ _ hk]
    unfold init_query_buf
    by_cases h0 : k = 0
    · subst h0
      simp
    · by_cases hq : k ≤ q.length
      · rw [if_pos hq, if_neg h0, if_neg (show ¬(k = 0 ∨ q.length < k) from by omega)]
      · rw [if_neg hq, if_pos (Or.inr (by omega))]
  · show band_get p.K (build_band p.K (init_delta_D q.length p.gap_open p.gap_extend)) k = _
    rw [band_get_build _ _ _ hk]
    unfold init_delta_D
    by_cases h0 : k = 0
    · subst h0
      simp
    · by_cases hq : k ≤ q.length
      · rw [if_pos hq, if_neg h0, if_neg h0, if_pos hq,
          as_i16_eq_self _ (hrange k hk).1 (hrange k hk).2]
      · rw [if_neg hq, if_neg h0, if_neg hq]
  · show band_get p.K (build_band p.K (fun _ => I16_MIN)) k = I16_MIN
    rw [band_get_build _ _ _ hk]
  · exact band_flat_get_strided p.K _ k hlane

set_option maxRecDepth 1000000 in
set_option maxHeartbeats 4000000 in
/-- C1, counterexample: with band width `W = 8 ≥ max(|r|,|q|) = 4`, the
symmetric matrix NW1 and affine gaps `-1`/`-1`, a global run on query `AAAA`
against reference `C` returns `-1`, while the exact full-matrix affine-gap
DP score is `-4`; so the computed score does not equal the exact DP result.
This is the very input whose score `test_scan_align` asserts to be `-1`. -/
theorem C1_cex_wide_band_not_exact :
    run_score 8 true NW1 (-1) (-1) false [65, 65, 65, 65] [67] 0 = some (-1) ∧
    dp_score NW1 (-1) (-1) [65, 65, 65, 65] [67] = some (-4) ∧
    (some (-1) : Option Int) ≠ some (-4) := by
  decide

set_option maxRecDepth 1000000 in
set_option maxHeartbeats 4000000 in
/-- C1, amended: the global score returned by the aligner is the tracked
`best_max`, which equals the band maximum of the final processed reference
column, not the exact bottom-right DP cell.  First conjunct (universal):
with `X_DROP` disabled, every Right column returns `false` for the break
flag and overwrites `best_max` with the current column's band maximum
`max_abs`, so the last column processed determines the score.  The
remaining conjuncts verify the concrete consequences: the model reproduces
every score and end index asserted by `test_scan_align` and `test_x_drop`,
and on every wide-band (`W ≥ max(|r|,|q|)`) global pair of those tests the
returned score equals the maximum of the exact DP values over the final
reference column — `-1` for `AAAA`/`C` where the exact global score is
`-4`, and `-4` for `C`/`AAAA`, `11` for `AARA`/`AAAA` (`W = 6`), `-4` for
`RRRR`/`AAAA` (`W = 8`) and `1` for `ATAA`/`AAAN` (`W = 4`), where the
final-column maximum coincides with the exact global score. -/
theorem C1_amended_final_column_max :
    (∀ (p : AlignParams) (st : AlignState) (c j : Nat) (x : Int),
      p.x_drop_on = false →
        (right_step p st c j x).2 = false ∧
        (right_step p st c j x).1.best_max = (right_data p st c).max_abs) ∧
    run_score 2 false BLOSUM62 (-11) (-1) false [65, 65, 82, 65] [65, 65, 65, 65] 0 = some 11 ∧
    run_score 6 false BLOSUM62 (-11) (-1) false [65, 65, 82, 65] [65, 65, 65, 65] 0 = some 11 ∧
    run_score 2 false BLOSUM62 (-11) (-1) false [65, 65, 65, 65] [65, 65, 65, 65] 0 = some 16 ∧
    run_score 1 false BLOSUM62 (-11) (-1) false [65, 65, 82, 65] [65, 65, 65, 65] 0 = some 11 ∧
    run_score 8 false BLOSUM62 (-11) (-1) false [82, 82, 82, 82] [65, 65, 65, 65] 0 = some (-4) ∧
    run_score 2 false BLOSUM62 (-11) (-1) false [65, 65, 65] [65, 65, 65, 65] 0 = some 1 ∧
    run_score 4 true NW1 (-1) (-1) false [65, 84, 65, 65] [65, 65, 65, 78] 0 = some 1 ∧
    run_score 8 true NW1 (-1) (-1) false [67] [65, 65, 65, 65] 0 = some (-4) ∧
    run_score 8 true NW1 (-1) (-1) false [65, 65, 65, 65] [67] 0 = some (-1) ∧
    run_score 3 false BLOSUM62 (-11) (-1) true [65, 65, 65, 65, 65, 65] [65, 65, 65, 82, 82, 65] 1 = some 12 ∧
    run_end_idx 3 false BLOSUM62 (-11) (-1) true [65, 65, 65, 65, 65, 65] [65, 65, 65, 82, 82, 65] 1 = some (3, 3) ∧
    run_score 20 false BLOSUM62 (-11) (-1) true [65, 65, 65, 65, 65, 65] [65, 65, 65, 82, 82, 65] 1 = some 12 ∧
    run_end_idx 20 false BLOSUM62 (-11) (-1) true [65, 65, 65, 65, 65, 65] [65, 65, 65, 82, 82, 65] 1 = some (3, 3) ∧
    dp_col_max NW1 (-1) (-1) [65, 65, 65, 65] [67] 5 1 = some (-1) ∧
    dp_score NW1 (-1) (-1) [65, 65, 65, 65] [67] = some (-4) ∧
    dp_col_max NW1 (-1) (-1) [67] [65, 65, 65, 65] 2 4 = some (-4) ∧
    dp_score NW1 (-1) (-1) [67] [65, 65, 65, 65] = some (-4) ∧
    dp_col_max BLOSUM62 (-11) (-1) [0, 0, 17, 0] [0, 0, 0, 0] 5 4 = some 11 ∧
    dp_score BLOSUM62 (-11) (-1) [0, 0, 17, 0] [0, 0, 0, 0] = some 11 ∧
    dp_col_max BLOSUM62 (-11) (-1) [17, 17, 17, 17] [0, 0, 0, 0] 5 4 = some (-4) ∧
    dp_score BLOSUM62 (-11) (-1) [17, 17, 17, 17] [0, 0, 0, 0] = some (-4) ∧
    dp_col_max NW1 (-1) (-1) [65, 84, 65, 65] [65, 65, 65, 78] 5 4 = some 1 ∧
    dp_score NW1 (-1) (-1) [65, 84, 65, 65] [65, 65, 65, 78] = some 1 := by
  refine ⟨?_, ?_⟩
  · intro p st c j x hx
    constructor
    · simp [right_step, hx]
    · simp [right_step, hx]
  · decide

/-- C5: each single-row Down shift rewrites exactly the stride vector at
index `ring_buf_idx % STRIDE`: it shifts the next query symbol into the
query buffer, shifts into `delta_D` a value `clamp(abs_D_band - abs_A00)`
at the top lane (`L-1`) where
`abs_D_band = max(previous abs_D_band + GAP_OPEN, abs_R_band)`, shifts
`i16::MIN` into `delta_C`, and increments `ring_buf_idx` by one; all other
stride vectors are untouched. -/
theorem C5_down_shift_rewrites_one_stride_vector (p : AlignParams) (st : AlignState)
    (hD : st.delta_D.length = STRIDE p.K)
    (hC : st.delta_C.length = STRIDE p.K)
    (hq : st.query_buf.length = STRIDE p.K) :
    (down_once p st).ring_buf_idx = st.ring_buf_idx + 1 ∧
    (down_once p st).abs_D_band = max (st.abs_D_band + p.gap_open) st.abs_R_band ∧
    vec_get (down_once p st).delta_D (st.ring_buf_idx % STRIDE p.K) =
      simd_sr1 (clamp (max (st.abs_D_band + p.gap_open) st.abs_R_band - st.abs_A00))
        (vec_get st.delta_D (st.ring_buf_idx % STRIDE p.K)) ∧
    vec_get (down_once p st).delta_C (st.ring_buf_idx % STRIDE p.K) =
      simd_sr1 I16_MIN (vec_get st.delta_C (st.ring_buf_idx % STRIDE p.K)) ∧
    vec_get (down_once p st).query_buf (st.ring_buf_idx % STRIDE p.K) =
      (vec_get st.query_buf (st.ring_buf_idx % STRIDE p.K)).drop 1 ++
        [convert_char (if st.query_idx p < st.query.length
                       then st.query.getD (st.query_idx p) 0 else NULL) p.nuc] ∧
    (∀ u, u ≠ st.ring_buf_idx % STRIDE p.K →
      vec_get (down_once p st).delta_D u = vec_get st.delta_D u ∧
      vec_get (down_once p st).delta_C u = vec_get st.delta_C u ∧
      vec_get (down_once p st).query_buf u = vec_get st.query_buf u) := by
  have hv : st.ring_buf_idx % STRIDE p.K < STRIDE p.K := Nat.mod_lt _ (stride_pos p.K)
  refine ⟨rfl, rfl, ?_, ?_, ?_, ?_⟩
  · exact getD_set_self _ _ _ _ (by rw [hD]; exact hv)
  · exact getD_set_self _ _ _ _ (by rw [hC]; exact hv)
  · exact getD_set_self _ _ _ _ (by rw [hq]; exact hv)
  · intro u hu
    exact ⟨getD_set_ne _ _ _ _ _ (fun h => hu h.symm),
      getD_set_ne _ _ _ _ _ (fun h => hu h.symm),
      getD_set_ne _ _ _ _ _ (fun h => hu h.symm)⟩

/-- C6: after a Right column that does not break, the controller chooses a
Down shift of exactly `argmax - CEIL_K/2` rows when the in-band position
`argmax` of the column maximum is strictly greater than `CEIL_K·5/8`, and
chooses Right otherwise. -/
theorem C6_shift_decision (p : AlignParams) (st : AlignState) (c j : Nat) (x_drop : Int)
    (h : (right_step p st c j x_drop).2 = false) :
    (CEIL_K p.K * 5 / 8 < (right_data p st c).argmax →
      (right_step p st c j x_drop).1.shift_dir =
        Dir.Down ((right_data p st c).argmax - CEIL_K p.K / 2)) ∧
    ((right_data p st c).argmax ≤ CEIL_K p.K * 5 / 8 →
      (right_step p st c j x_drop).1.shift_dir = Dir.Right) := by
  by_cases hb : (p.x_drop_on &&
      decide ((right_data p st c).max_abs < st.best_max - x_drop)) = true
  · exfalso
    unfold right_step at h
    rw [if_pos hb] at h
    simp at h
  · constructor
    · intro harg
      unfold right_step
      rw [if_neg hb]
      show (if CEIL_K p.K * 5 / 8 < (right_data p st c).argmax then _ else _) = _
      rw [if_pos harg]
    · intro harg
      unfold right_step
      rw [if_neg hb]
      show (if CEIL_K p.K * 5 / 8 < (right_data p st c).argmax then _ else _) = _
      rw [if_neg (by omega)]

/-- C3: with X_DROP enabled, a Right column signals early termination
exactly when the column band maximum `abs_band + max_lane` is below
`best_max - x_drop` (assuming the i32 saturating add does not saturate,
which the bounds hypotheses guarantee); in particular early termination
implies that the best score seen so far exceeds the current band maximum by
more than `x_drop`. -/
theorem C3_x_drop_break_iff (p : AlignParams) (st : AlignState) (c j : Nat) (x_drop : Int)
    (hx : p.x_drop_on = true)
    (h1 : I32_MIN ≤ (right_data p st c).abs_band + (right_data p st c).max_lane)
    (h2 : (right_data p st c).abs_band + (right_data p st c).max_lane ≤ I32_MAX) :
    ((right_step p st c j x_drop).2 = true ↔
      (right_data p st c).abs_band + (right_data p st c).max_lane < st.best_max - x_drop) ∧
    ((right_step p st c j x_drop).2 = true →
      x_drop < st.best_max - ((right_data p st c).abs_band + (right_data p st c).max_lane)) := by
  have hmx : (right_data p st c).max_abs =
      (right_data p st c).abs_band + (right_data p st c).max_lane := by
    have hrfl : (right_data p st c).max_abs =
        sadd32 (right_data p st c).max_lane (right_data p st c).abs_band := rfl
    rw [hrfl]
    simp only [sadd32, I32_MIN, I32_MAX] at h1 h2 ⊢
    omega
  have hsnd : (right_step p st c j x_drop).2 =
      (p.x_drop_on && decide ((right_data p st c).max_abs < st.best_max - x_drop)) := by
    unfold right_step
    by_cases hb : (p.x_drop_on &&
        decide ((right_data p st c).max_abs < st.best_max - x_drop)) = true
    · rw [if_pos hb, hb]
    · rw [if_neg hb]
      exact (Bool.not_eq_true _).mp hb ▸ rfl
  constructor
  · rw [hsnd, hx, Bool.true_and, decide_eq_true_eq, hmx]
  · rw [hsnd, hx, Bool.true_and, decide_eq_true_eq, hmx]
    omega

/-- C10: with `X_DROP = true`, calling align with a negative `x_drop`
argument hits the leading assertion and produces no result (before any DP
work); with `X_DROP = false` the `x_drop` argument has no effect on the
computed result. -/
theorem C10_x_drop_assert_and_independence :
    (∀ (K : Nat) (nuc : Bool) (mat : Nat → Nat → Int) (go ge : Int) (q r : List Nat)
      (xd : Int), xd < 0 → run_align K nuc mat go ge true q r xd = none) ∧
    (∀ (K : Nat) (nuc : Bool) (mat : Nat → Nat → Int) (go ge : Int) (q r : List Nat)
      (x1 x2 : Int), run_align K nuc mat go ge false q r x1 =
        run_align K nuc mat go ge false q r x2) := by
  constructor
  · intro K nuc mat go ge q r xd hxd
    unfold run_align align
    rw [if_pos (by simpa using hxd)]
  · intro K nuc mat go ge q r x1 x2
    have hcols : ∀ (ref : List Nat) (st : AlignState) (j : Nat),
        align_cols ⟨K, nuc, mat, go, ge, false⟩ x1 st ref j =
        align_cols ⟨K, nuc, mat, go, ge, false⟩ x2 st ref j := by
      intro ref
      induction ref with
      | nil => intro st j; rfl
      | cons c rest ih =>
        intro st j
        show (match right_step ⟨K, nuc, mat, go, ge, false⟩ _ c j x1 with
              | (st1, true) => st1
              | (st1, false) => align_cols ⟨K, nuc, mat, go, ge, false⟩ x1 st1 rest (j + 1)) =
             (match right_step ⟨K, nuc, mat, go, ge, false⟩ _ c j x2 with
              | (st1, true) => st1
              | (st1, false) => align_cols ⟨K, nuc, mat, go, ge, false⟩ x2 st1 rest (j + 1))
        have hrs : right_step ⟨K, nuc, mat, go, ge, false⟩
            (match st.shift_dir with
             | Dir.Down t => down_phase ⟨K, nuc, mat, go, ge, false⟩ st t
             | Dir.Right => st) c j x1 =
            right_step ⟨K, nuc, mat, go, ge, false⟩
            (match st.shift_dir with
             | Dir.Down t => down_phase ⟨K, nuc, mat, go, ge, false⟩ st t
             | Dir.Right => st) c j x2 := by
          unfold right_step
          rfl
        rw [hrs]
        cases right_step ⟨K, nuc, mat, go, ge, false⟩
            (match st.shift_dir with
             | Dir.Down t => down_phase ⟨K, nuc, mat, go, ge, false⟩ st t
             | Dir.Right => st) c j x2 with
        | mk st1 b =>
          cases b with
          | true => rfl
          | false => exact ih st1 (j + 1)
    have key : ∀ x : Int, run_align K nuc mat go ge false q r x =
        some { align_cols ⟨K, nuc, mat, go, ge, false⟩ x
            { scan_new ⟨K, nuc, mat, go, ge, false⟩ q with
              delta_D00 := simd_sl1 (vec_get (scan_new ⟨K, nuc, mat, go, ge, false⟩ q).delta_D
                (((scan_new ⟨K, nuc, mat, go, ge, false⟩ q).ring_buf_idx + STRIDE K - 1) %
                  STRIDE K)) neg_inf
              abs_R_band := I32_MIN
              abs_D_band := I16_MIN } r 0 with
          ref_idx := (align_cols ⟨K, nuc, mat, go, ge, false⟩ x
            { scan_new ⟨K, nuc, mat, go, ge, false⟩ q with
              delta_D00 := simd_sl1 (vec_get (scan_new ⟨K, nuc, mat, go, ge, false⟩ q).delta_D
                (((scan_new ⟨K, nuc, mat, go, ge, false⟩ q).ring_buf_idx + STRIDE K - 1) %
                  STRIDE K)) neg_inf
              abs_R_band := I32_MIN
              abs_D_band := I16_MIN } r 0).ref_idx + r.length } := fun x => rfl
    rw [key x1, key x2, hcols]

set_option maxRecDepth 1000000 in
set_option maxHeartbeats 4000000 in
/-- C7, counterexample: swapping query and reference does not preserve the
computed global score.  NW1 is symmetric on the bytes involved, yet the
source's own `test_scan_align` asserts (and the model reproduces) score
`-4` for query `C` against reference `AAAA` and `-1` for query `AAAA`
against reference `C`, with band width 8 and gaps `-1`/`-1` in both runs. -/
theorem C7_cex_swap_changes_score :
    NW1 67 65 = NW1 65 67 ∧
    run_score 8 true NW1 (-1) (-1) false [67] [65, 65, 65, 65] 0 = some (-4) ∧
    run_score 8 true NW1 (-1) (-1) false [65, 65, 65, 65] [67] 0 = some (-1) ∧
    (some (-4) : Option Int) ≠ some (-1) := by
  decide

set_option maxRecDepth 1000000 in
set_option maxHeartbeats 16000000 in
/-- C8, counterexample: doubling the band width can strictly decrease the
reported global score.  For the 36-byte query `mono_cex_q` against the
28-byte reference `mono_cex_r` under NW1 with gaps `-1`/`-1`, band width
`W = 16 = L` yields score 2 while `2·W = 32` yields score 1: the wider
band follows a different adaptive shift trajectory and its final band
misses the higher-scoring cells. -/
theorem C8_cex_doubling_band_decreases_score :
    run_score 16 true NW1 (-1) (-1) false mono_cex_q mono_cex_r 0 = some 2 ∧
    run_score 32 true NW1 (-1) (-1) false mono_cex_q mono_cex_r 0 = some 1 ∧
    ¬ ((2 : Int) ≤ 1) := by
  decide

set_option maxRecDepth 1000000 in
set_option maxHeartbeats 4000000 in
/-- C7, amended: what does hold is swap symmetry of the exact D/R/C dynamic
program: for a symmetric matrix, the exact DP cell at `(i, j)` for `(q, r)`
equals the cell at `(j, i)` for `(r, q)` with the row-gap and column-gap
planes exchanged; the banded aligner itself does not preserve the computed
score under swapping (see the counterexample). -/
theorem C7_amended_exact_dp_swap (m : Nat → Nat → Int) (hm : ∀ a b, m a b = m b a)
    (go ge : Int) (q r : List Nat) :
    ∀ i j, (dp_row m go ge q r i j).D = (dp_row m go ge r q j i).D ∧
      (dp_row m go ge q r i j).R = (dp_row m go ge r q j i).C ∧
      (dp_row m go ge q r i j).C = (dp_row m go ge r q j i).R := by
  intro i
  induction i with
  | zero =>
    intro j
    cases j with
    | zero => exact ⟨rfl, rfl, rfl⟩
    | succ n => exact ⟨rfl, rfl, rfl⟩
  | succ i ih =>
    intro j
    induction j with
    | zero => exact ⟨rfl, rfl, rfl⟩
    | succ n ihn =>
      obtain ⟨d1, r1, c1⟩ := ih n
      obtain ⟨d2, r2, c2⟩ := ih (n + 1)
      obtain ⟨d3, r3, c3⟩ := ihn
      have e1 : dp_row m go ge q r (i + 1) (n + 1) =
          dp_next_cell (m (q.getD i 0) (r.getD n 0)) go ge (dp_row m go ge q r i n)
            (dp_row m go ge q r i (n + 1)) (dp_row m go ge q r (i + 1) n) := rfl
      have e2 : dp_row m go ge r q (n + 1) (i + 1) =
          dp_next_cell (m (r.getD n 0) (q.getD i 0)) go ge (dp_row m go ge r q n i)
            (dp_row m go ge r q n (i + 1)) (dp_row m go ge r q (n + 1) i) := rfl
      rw [e1, e2]
      unfold dp_next_cell
      refine ⟨?_, ?_, ?_⟩
      · show omax (oadd (dp_row m go ge q r i n).D (m (q.getD i 0) (r.getD n 0)))
            (omax (omax (oadd (dp_row m go ge q r i (n + 1)).R ge)
                        (oadd (dp_row m go ge q r i (n + 1)).D go))
                  (omax (oadd (dp_row m go ge q r (i + 1) n).C ge)
                        (oadd (dp_row m go ge q r (i + 1) n).D go))) = _
        rw [d1, r2, d2, c3, d3, hm (q.getD i 0) (r.getD n 0),
          omax_comm (omax (oadd (dp_row m go ge r q (n + 1) i).C ge)
                          (oadd (dp_row m go ge r q (n + 1) i).D go))
                    (omax (oadd (dp_row m go ge r q n (i + 1)).R ge)
                          (oadd (dp_row m go ge r q n (i + 1)).D go))]
      · show omax (oadd (dp_row m go ge q r i (n + 1)).R ge)
            (oadd (dp_row m go ge q r i (n + 1)).D go) = _
        rw [r2, d2]
      · show omax (oadd (dp_row m go ge q r (i + 1) n).C ge)
            (oadd (dp_row m go ge q r (i + 1) n).D go) = _
        rw [c3, d3]

set_option maxRecDepth 1000000 in
set_option maxHeartbeats 4000000 in
/-- C9, amended: the only alphabet guard in the kernel is the
`debug_assert` of `convert_char`, whose condition is exactly
`byte ∈ ['A', 'A'+26]`; there is no `InvalidAlphabet` error anywhere, and
in release semantics a run on input containing an out-of-range byte returns
an ordinary result (score `-1` for query `a` against reference `A`). -/
theorem C9_amended_debug_assert_only :
    (∀ c : Nat, c < 65 ∨ 91 < c → ¬ convert_char_ok c) ∧
    (∀ c : Nat, 65 ≤ c → c ≤ 91 → convert_char_ok c) ∧
    run_score 2 true NW1 (-1) (-1) false [97] [65] 0 = some (-1) := by
  refine ⟨?_, ?_, ?_⟩
  · intro c hc hok
    unfold convert_char_ok NULL at hok
    omega
  · intro c h1 h2
    unfold convert_char_ok NULL
    omega
  · decide

set_option maxRecDepth 1000000 in
set_option maxHeartbeats 4000000 in
/-- C9, counterexample: an input byte outside `['A', 'A'+26]` does not make
the alignment fail: no `InvalidAlphabet` error exists in the kernel, the
only guard is the `debug_assert` in `convert_char` (violated by byte 97,
lowercase `a`), and in release semantics the run produces an ordinary
result, `-1` for query `a` against reference `A` under NW1. -/
theorem C9_cex_invalid_byte_scored :
    ¬ convert_char_ok 97 ∧
    run_score 2 true NW1 (-1) (-1) false [97] [65] 0 = some (-1) := by
  decide

/-- C8, amended: the reported score is not monotone in the band width (see
the counterexample); what does hold is that the band width parameter `W`
influences the computation only through the rounded band size
`CEIL_K = round_up(W+1, L)`: any two band widths with equal `STRIDE`
(equivalently equal `CEIL_K`) produce identical results on every input. -/
theorem C8_amended_score_depends_only_on_band_rounding (K1 K2 : Nat) (nuc : Bool)
    (mat : Nat → Nat → Int) (go ge : Int) (q r : List Nat) (x : Int)
    (h : STRIDE K1 = STRIDE K2) :
    run_score K1 nuc mat go ge false q r x = run_score K2 nuc mat go ge false q r x := by
  unfold run_score
  have e1 : run_align K1 nuc mat go ge false q r x =
      align ⟨K1, nuc, mat, go, ge, false⟩ (scan_new ⟨K1, nuc, mat, go, ge, false⟩ q) r x := rfl
  have e2 : run_align K2 nuc mat go ge false q r x =
      align ⟨K2, nuc, mat, go, ge, false⟩ (scan_new ⟨K2, nuc, mat, go, ge, false⟩ q) r x := rfl
  rw [e1, e2, scan_new_congr _ _ _ _ _ _ _ _ h, align_congr _ _ _ _ _ _ _ _ _ _ h]

-- ---------------------------------------------------------------------------
-- Witnesses
-- ---------------------------------------------------------------------------

set_option maxRecDepth 1000000 in
/-- Witness for C1 (amended): the universal conjunct applied at a concrete
global-mode state: the Right column does not break and its `best_max` is
the column's band maximum. -/
theorem C1_witness :
    c2_params.x_drop_on = false ∧
    (right_step c2_params c2_start 65 0 0).2 = false ∧
    (right_step c2_params c2_start 65 0 0).1.best_max =
      (right_data c2_params c2_start 65).max_abs :=
  ⟨rfl, C1_amended_final_column_max.1 c2_params c2_start 65 0 0 rfl⟩

set_option maxRecDepth 1000000 in
set_option maxHeartbeats 1000000 in
/-- Witness for C3: at the concrete initial X-drop state, the bounds
hypotheses hold and the break flag matches the break inequality. -/
theorem C3_witness :
    c3_params.x_drop_on = true ∧
    I32_MIN ≤ (right_data c3_params c3_state 65).abs_band +
      (right_data c3_params c3_state 65).max_lane ∧
    (right_data c3_params c3_state 65).abs_band +
      (right_data c3_params c3_state 65).max_lane ≤ I32_MAX ∧
    ((right_step c3_params c3_state 65 0 0).2 = true ↔
      (right_data c3_params c3_state 65).abs_band +
        (right_data c3_params c3_state 65).max_lane < c3_state.best_max - 0) :=
  ⟨rfl, by decide, by decide,
    (C3_x_drop_break_iff c3_params c3_state 65 0 0 rfl (by decide) (by decide)).1⟩

set_option maxRecDepth 1000000 in
/-- Witness for C4: with gaps `-11`/`-1` the range hypothesis holds, and
lane 1 of the freshly constructed band holds `GAP_OPEN = -11`. -/
theorem C4_witness :
    (∀ k, k < CEIL_K 2 → I16_MIN ≤ (-11 : Int) + ((k : Int) - 1) * (-1) ∧
      (-11 : Int) + ((k : Int) - 1) * (-1) ≤ I16_MAX) ∧
    band_get 2 (scan_new ⟨2, false, BLOSUM62, -11, -1, false⟩ [65, 82]).delta_D 1 = -11 := by
  refine ⟨by decide, ?_⟩
  have h := (C4_scan_new_init ⟨2, false, BLOSUM62, -11, -1, false⟩ [65, 82] (by decide)) 1
    (by decide)
  rw [h.2.1]
  norm_num

set_option maxRecDepth 1000000 in
/-- Witness for C5: the well-formedness hypotheses hold for a freshly
constructed state and the down shift increments `ring_buf_idx`. -/
theorem C5_witness :
    (scan_new ⟨2, false, BLOSUM62, -11, -1, false⟩ [65]).delta_D.length = STRIDE 2 ∧
    (down_once ⟨2, false, BLOSUM62, -11, -1, false⟩
        (scan_new ⟨2, false, BLOSUM62, -11, -1, false⟩ [65])).ring_buf_idx =
      (scan_new ⟨2, false, BLOSUM62, -11, -1, false⟩ [65]).ring_buf_idx + 1 :=
  ⟨by decide,
    (C5_down_shift_rewrites_one_stride_vector ⟨2, false, BLOSUM62, -11, -1, false⟩
      (scan_new ⟨2, false, BLOSUM62, -11, -1, false⟩ [65])
      (by decide) (by decide) (by decide)).1⟩

set_option maxRecDepth 1000000 in
set_option maxHeartbeats 1000000 in
/-- Witness for C6: at a concrete non-breaking Right column whose argmax is
at most `CEIL_K·5/8`, the controller chooses Right. -/
theorem C6_witness :
    (right_step c6_params c6_state 65 0 0).2 = false ∧
    (right_data c6_params c6_state 65).argmax ≤ CEIL_K 2 * 5 / 8 ∧
    (right_step c6_params c6_state 65 0 0).1.shift_dir = Dir.Right :=
  ⟨by decide, by decide,
    (C6_shift_decision c6_params c6_state 65 0 0 (by decide)).2 (by decide)⟩

/-- Witness for C7 (amended): the exact DP swap symmetry at a concrete
cell, with the symmetry hypothesis discharged by `NW1_symm`. -/
theorem C7_witness :
    dp_D NW1 (-1) (-1) [67] [65, 65] 1 2 = dp_D NW1 (-1) (-1) [65, 65] [67] 2 1 :=
  (C7_amended_exact_dp_swap NW1 NW1_symm (-1) (-1) [67] [65, 65] 1 2).1

/-- Witness for C8 (amended): band widths 16 and 20 round to the same
`CEIL_K = 32` and therefore give the same score. -/
theorem C8_witness :
    STRIDE 16 = STRIDE 20 ∧
    run_score 16 true NW1 (-1) (-1) false [65] [65] 0 =
      run_score 20 true NW1 (-1) (-1) false [65] [65] 0 :=
  ⟨by decide,
    C8_amended_score_depends_only_on_band_rounding 16 20 true NW1 (-1) (-1) [65] [65] 0
      (by decide)⟩

/-- Witness for C9 (amended): byte 97 (lowercase `a`) violates the
`debug_assert` guard while byte 66 (`B`) satisfies it. -/
theorem C9_witness : ¬ convert_char_ok 97 ∧ convert_char_ok 66 :=
  ⟨C9_amended_debug_assert_only.1 97 (Or.inr (by decide)),
    C9_amended_debug_assert_only.2.1 66 (by decide) (by decide)⟩

set_option maxRecDepth 1000000 in
/-- Witness for C10: a negative x-drop argument under `X_DROP = true`
yields no result, and in global mode two different x-drop arguments yield
identical results. -/
theorem C10_witness :
    run_align 2 true NW1 (-1) (-1) true [65] [65] (-1) = none ∧
    run_align 2 true NW1 (-1) (-1) false [65] [65] 5 =
      run_align 2 true NW1 (-1) (-1) false [65] [65] 7 :=
  ⟨C10_x_drop_assert_and_independence.1 2 true NW1 (-1) (-1) [65] [65] (-1) (by decide),
    C10_x_drop_assert_and_independence.2 2 true NW1 (-1) (-1) [65] [65] 5 7⟩

end ScanMinecraft
